import Mathlib

/-!
Verification development for the annotation orchestration and geometry
pipeline of the repository (source: src/core.py).

The Python source is shallowly embedded: pure numeric code becomes exact
rational arithmetic (Python floats are modelled as rationals, `astype(int)`
as truncation toward zero, `//` as floor division), fallible code (Python
exceptions such as KeyError / ZeroDivisionError) becomes Option-valued
functions, and the external drawing primitives of the supervision library
are modelled as operations recorded on a frame trace (they paint the frame
buffer in place; a frame is pixel-identical to the input exactly when no
drawing operation was applied to it).
-/

namespace Core

/-- Truncation toward zero, the semantics of numpy's astype(int) and
Python's int() on a real value. -/
def pyTrunc (q : ℚ) : ℤ := Int.tdiv q.num (q.den : ℤ)

/-- Floor division, the semantics of Python's and numpy's integer
division operator. -/
def pyFloorDiv (a b : ℤ) : ℤ := Int.fdiv a b

/-- A point in frame-pixel space (exact rational coordinates). -/
abbrev Pt : Type := ℚ × ℚ

/-- An RGB triple; channels range over 0..255 in the call sites. -/
abbrev RGB : Type := ℚ × ℚ × ℚ

/-- Embedding of rgb2ycc from src/core.py: channels are divided by 255 and
the linear transform is applied with the coefficients written in the code
(note the Cb row uses 0.331364 for the green channel). -/
def rgb2ycc (rgb : RGB) : ℚ × ℚ × ℚ :=
  let r : ℚ := rgb.1 / 255
  let g : ℚ := rgb.2.1 / 255
  let b : ℚ := rgb.2.2 / 255
  (0.299 * r + 0.587 * g + 0.114 * b,
   128 - 0.168736 * r - 0.331364 * g + 0.5 * b,
   128 + 0.5 * r - 0.418688 * g - 0.081312 * b)

/-- The colour-space conversion as the specification states it: the
standard broadcast-safe RGB to YCbCr transform, whose Cb row uses
0.331264 for the green channel. Stated from the spec's words, to be
compared against the code's rgb2ycc. -/
def rgb2ycc_spec (rgb : RGB) : ℚ × ℚ × ℚ :=
  let r : ℚ := rgb.1 / 255
  let g : ℚ := rgb.2.1 / 255
  let b : ℚ := rgb.2.2 / 255
  (0.299 * r + 0.587 * g + 0.114 * b,
   128 - 0.168736 * r - 0.331264 * g + 0.5 * b,
   128 + 0.5 * r - 0.418688 * g - 0.081312 * b)

/-- Squared Euclidean distance in (Y, Cb, Cr) space, the metric used by
closest in src/core.py. -/
def sqDist (a b : ℚ × ℚ × ℚ) : ℚ :=
  (a.1 - b.1) ^ 2 + (a.2.1 - b.2.1) ^ 2 + (a.2.2 - b.2.2) ^ 2

/-- First index of the minimal element, the semantics of np.argmin: a later
element replaces the current best only when strictly smaller. -/
def argminIdx (l : List ℚ) : ℕ :=
  (l.foldl
    (fun acc v =>
      let best := acc.1
      let bestIdx := acc.2.1
      let i := acc.2.2
      if v < best then (v, i, i + 1) else (best, bestIdx, i + 1))
    ((l.headD 0), 0, 0)).2.1

/-- Embedding of closest from src/core.py: index of the first palette entry
minimising squared YCbCr distance to the converted sample. -/
def closest (rgb : RGB) (yccPalette : List (ℚ × ℚ × ℚ)) : ℕ :=
  argminIdx (yccPalette.map (fun c => sqDist c (rgb2ycc rgb)))

/-- Option-valued map over a list, propagating the first failure: the
embedding of a Python comprehension whose body may raise (a missing dict
key or list index raises and aborts the whole comprehension). -/
def mapO {α β : Type} (f : α → Option β) : List α → Option (List β)
  | [] => some []
  | a :: l => do
    let b ← f a
    let bs ← mapO f l
    pure (b :: bs)

@[simp] theorem mapO_nil {α β : Type} (f : α → Option β) : mapO f [] = some [] := rfl

@[simp] theorem mapO_cons {α β : Type} (f : α → Option β) (a : α) (l : List α) :
    mapO f (a :: l) =
      (f a).bind (fun b => (mapO f l).bind (fun bs => some (b :: bs))) := rfl

/-- A raw record delivered by the interactive canvas: a kind tag plus the
kind-specific geometric fields. A Python dict access on a missing field
raises KeyError, so every field except the kind is Option-valued. A
freehand path command is its leading letter plus its numeric arguments. -/
structure CanvasObj where
  type : String
  left : Option ℚ := none
  top : Option ℚ := none
  x1 : Option ℚ := none
  y1 : Option ℚ := none
  x2 : Option ℚ := none
  y2 : Option ℚ := none
  width : Option ℚ := none
  height : Option ℚ := none
  path : Option (List (String × List ℚ)) := none
deriving DecidableEq, Repr

/-- The line branch of Draw.from_canvas: endpoints are the record's offset
plus its two local endpoint deltas; a missing field is a KeyError. -/
def lineOf (o : CanvasObj) : Option (Pt × Pt) := do
  let l ← o.left
  let t ← o.top
  let a1 ← o.x1
  let b1 ← o.y1
  let a2 ← o.x2
  let b2 ← o.y2
  pure ((l + a1, t + b1), (l + a2, t + b2))

/-- The freehand-path branch of Draw.from_canvas: the closing command is
dropped and each remaining command contributes its first two numeric
arguments as a vertex; a command with fewer than two arguments is an
IndexError. -/
def pathZoneOf (o : CanvasObj) : Option (List Pt) := do
  let p ← o.path
  mapO
    (fun c => do
      let a ← c.2[0]?
      let b ← c.2[1]?
      pure ((a, b) : Pt))
    p.dropLast

/-- The rectangle branch of Draw.from_canvas: the four corners clockwise
from the top-left, computed from offset, width and height. -/
def rectZoneOf (o : CanvasObj) : Option (List Pt) := do
  let l ← o.left
  let t ← o.top
  let w ← o.width
  let h ← o.height
  pure [(l, t), (l + w, t), (l + w, t + h), (l, t + h)]

/-- The active geometry: line segments and polygonal zones
(the Draw dataclass of src/core.py). -/
structure Draw where
  lines : List (Pt × Pt) := []
  zones : List (List Pt) := []
deriving DecidableEq, Repr

/-- Embedding of Draw.from_canvas from src/core.py: lines come from the
records of kind line in input order; zones are all freehand-path polygons
in input order concatenated with all rectangle polygons in input order.
Any malformed record of a recognised kind aborts the call (Python raises);
records of any other kind are ignored. -/
def Draw.from_canvas (d : List CanvasObj) : Option Draw := do
  let lines ← mapO lineOf (d.filter (fun o => o.type == "line"))
  let pzs ← mapO pathZoneOf (d.filter (fun o => o.type == "path"))
  let rzs ← mapO rectZoneOf (d.filter (fun o => o.type == "rect"))
  pure { lines := lines, zones := pzs ++ rzs }

/-- The display toggles (the Display dataclass of src/core.py). -/
structure Display where
  fps : Bool := true
  predict_color : Bool := false
  box : Bool := true
  skip_label : Bool := false
  mask : Bool := true
  mask_opacity : ℚ := 0.5
  area : Bool := true
deriving DecidableEq, Repr

/-- The rendering tweaks (the Tweak dataclass of src/core.py). -/
structure Tweak where
  thickness : ℤ := 1
  text_scale : ℚ := 0.5
  text_offset : ℤ := 1
  text_padding : ℤ := 2
  text_color : String := "#000000"
deriving DecidableEq, Repr

/-- The external-model identity (the ModelInfo dataclass of src/core.py). -/
structure ModelInfo where
  path : String := "yolov8n.pt"
  classes : List ℤ := []
  ver : String := "v8"
  task : String := "detect"
  conf : ℚ := 0.25
  tracker : Option String := none
deriving DecidableEq, Repr

/-- Modelled from the spec: the external supervision LineZone primitive is
constructed from a start and an end point and maintains running in and out
crossing counters, which begin at zero on construction (spec section 6,
line-trigger primitive). Only construction is modelled; the crossing
algorithm itself is external and never needed by the claims. -/
structure LineZone where
  start : Pt
  stop : Pt
  in_count : ℕ := 0
  out_count : ℕ := 0
deriving DecidableEq, Repr

/-- Fresh construction of a LineZone, as LineZone(start=..., end=...) does:
both counters start at zero. -/
def mkLineZone (s e : Pt) : LineZone := { start := s, stop := e }

/-- Modelled from the spec: the external supervision PolygonZone primitive
is constructed from a polygon and a reference resolution and stores both
(spec section 6, polygon-trigger primitive). -/
structure PolygonZone where
  polygon : List Pt
  frame_resolution_wh : ℕ × ℕ
deriving DecidableEq, Repr

/-- Modelled from the spec: get_polygon_center of the external library, the
centroid (vertex mean) of a polygon (spec sections 4.2 and 4.4). -/
def polygonCenter (p : List Pt) : Pt :=
  ((p.map Prod.fst).sum / (p.length : ℚ), (p.map Prod.snd).sum / (p.length : ℚ))

/-- Modelled from the spec: the per-zone annotator state the pipeline
mutates on update: the bound zone, its label-anchor center, and the index
into the fixed default palette assigned at construction. -/
structure ZoneAnnot where
  zone : PolygonZone
  center : Pt
  colorIdx : ℕ
deriving DecidableEq, Repr

/-- The Annotator state (src/core.py, class Annotator): configuration plus
the geometry derived from the DrawSet. The external model handle is
identified by modelInfo and lives outside the embedding. -/
structure AnnState where
  modelInfo : ModelInfo
  reso : ℕ × ℕ
  draw : Draw
  display : Display
  tweak : Tweak
  ls : List LineZone
  zs : List PolygonZone
  zones : List ZoneAnnot
deriving DecidableEq, Repr

/-- Embedding of Annotator.__init__ from src/core.py: line triggers from
draw.lines, polygon triggers from draw.zones at the construction
resolution, and one zone annotator per polygon trigger with the palette
colour assigned by index and the label anchored at the polygon centroid. -/
def mkAnnotator (mi : ModelInfo) (reso : ℕ × ℕ) (draw : Draw)
    (display : Display) (tweak : Tweak) : AnnState :=
  let zs := draw.zones.map (fun p => PolygonZone.mk p reso)
  { modelInfo := mi
    reso := reso
    draw := draw
    display := display
    tweak := tweak
    ls := draw.lines.map (fun l => mkLineZone l.1 l.2)
    zs := zs
    zones := zs.enum.map (fun iz =>
      { zone := iz.2, center := polygonCenter iz.2.polygon, colorIdx := iz.1 }) }

/-- Both coordinates multiplied by the scale factor, exactly. -/
def scalePt (s : ℚ) (p : Pt) : Pt := (p.1 * s, p.2 * s)

/-- Both coordinates truncated toward zero, the semantics of numpy's
astype(int) applied to a scaled polygon. -/
def truncPt (p : Pt) : Pt := ((pyTrunc p.1 : ℚ), (pyTrunc p.2 : ℚ))

/-- Embedding of Annotator.update from src/core.py, called with the new
frame height and width. The scale factor is frame height over the height
recorded at construction; a zero recorded height is a ZeroDivisionError
(none). Line triggers are rebuilt from draw.lines with every endpoint
coordinate multiplied by the scale; polygon triggers are rebuilt from
draw.zones with every vertex scaled then truncated to integers; each zone
annotator is rebound in place to the new polygon trigger with its center
recomputed as the new polygon's centroid (an out-of-range index is an
IndexError, none). draw and reso themselves are left untouched. -/
def updateAnn (a : AnnState) (fh fw : ℕ) : Option AnnState :=
  if a.reso.2 = 0 then none
  else if a.zones.length < a.draw.zones.length then none
  else
    let scale : ℚ := (fh : ℚ) / (a.reso.2 : ℚ)
    let origin_zs := a.draw.zones.map (fun p => PolygonZone.mk p a.reso)
    let zs := origin_zs.map (fun z =>
      PolygonZone.mk (z.polygon.map (fun v => truncPt (scalePt scale v))) (fw, fh))
    some { a with
      ls := a.draw.lines.map (fun l => mkLineZone (scalePt scale l.1) (scalePt scale l.2))
      zs := zs
      zones :=
        ((a.zones.zip zs).map (fun p =>
          { p.1 with zone := p.2, center := polygonCenter p.2.polygon }))
        ++ a.zones.drop zs.length }

/-- One external detection for a frame: box corners, confidence, class id,
optional track id and precomputed box area. -/
structure Det where
  x1 : ℚ
  y1 : ℚ
  x2 : ℚ
  y2 : ℚ
  conf : ℚ := 0.9
  cls : ℕ := 0
  track_id : Option ℤ := none
  area : ℚ := 0
deriving DecidableEq, Repr

/-- The integer box center used by the predict-color and area steps:
corners truncated to int, then floor-averaged, exactly as
(xyxy[:, [0, 1]] + xyxy[:, [2, 3]]) // 2 computes it. -/
def detCenter (d : Det) : ℤ × ℤ :=
  (pyFloorDiv (pyTrunc d.x1 + pyTrunc d.x2) 2,
   pyFloorDiv (pyTrunc d.y1 + pyTrunc d.y2) 2)

/-- Modelled from the spec: one invocation of an external drawing
primitive (spec section 6, drawing primitives paint the frame buffer in
place). Each constructor records which pipeline step painted and with what
arguments. -/
inductive DrawOp where
  | colorLabel (anchor : ℤ × ℤ)
  | boxAnnot (skip_label : Bool)
  | maskAnnot (opacity : ℚ)
  | areaLabel (value : ℤ) (anchor : ℤ × ℤ)
  | lineAnnot (idx : ℕ)
  | zoneAnnot (idx : ℕ)
  | fpsText
deriving DecidableEq, Repr

/-- A frame buffer: its dimensions and the trace of drawing operations
applied to it since it was produced. A frame fresh from the camera has an
empty trace; a frame is pixel-identical to the input exactly when the
pipeline applied no drawing operation to it. -/
structure Frame where
  height : ℕ
  width : ℕ
  ops : List DrawOp := []
deriving DecidableEq, Repr

/-- Applying one drawing primitive to the frame buffer in place. -/
def pushOp (f : Frame) (op : DrawOp) : Frame := { f with ops := f.ops ++ [op] }

/-- The predict-color loop of Annotator.__call__: for each detection in
order, the box region is cropped from the frame buffer as it is at that
iteration, then a filled colour label is painted at the box center plus a
vertical text offset of 20. Returns the final buffer and, for each
detection, the buffer state its crop was taken from. -/
def colorStep : List Det → Frame → Frame × List Frame
  | [], f => (f, [])
  | d :: ds, f =>
    let src := f
    let f1 := pushOp f (DrawOp.colorLabel ((detCenter d).1, (detCenter d).2 + 20))
    let r := colorStep ds f1
    (r.1, src :: r.2)

/-- Embedding of the per-frame render pass Annotator.__call__ from
src/core.py, given the detections the external model returned for this
frame. Steps in source order: predict-color labels, boxes, masks, area
labels, then unconditionally one annotate call per line trigger and per
polygon trigger, then the fps overlay. Returns the rendered frame, the
detection list as the pipeline leaves it, and the list of crop-source
buffers of the predict-color step. -/
def annotate (a : AnnState) (f0 : Frame) (det : List Det) :
    Frame × List Det × List Frame :=
  let r1 := if a.display.predict_color then colorStep det f0 else (f0, [])
  let f1 := r1.1
  let f2 := if a.display.box then pushOp f1 (DrawOp.boxAnnot a.display.skip_label) else f1
  let f3 := if a.display.mask then pushOp f2 (DrawOp.maskAnnot a.display.mask_opacity) else f2
  let f4 :=
    if a.display.area then
      det.foldl (fun g d => pushOp g (DrawOp.areaLabel (pyTrunc d.area) (detCenter d))) f3
    else f3
  let f5 := (List.range a.ls.length).foldl (fun g i => pushOp g (DrawOp.lineAnnot i)) f4
  let f6 := (List.range a.zs.length).foldl (fun g i => pushOp g (DrawOp.zoneAnnot i)) f5
  let f7 := if a.display.fps then pushOp f6 DrawOp.fpsText else f6
  (f7, det, r1.2)

/-- A structured configuration document, the shape of the JSON value
Annotator.dump writes and Annotator.load reads back. -/
inductive J where
  | num (q : ℚ)
  | str (s : String)
  | bool (b : Bool)
  | null
  | arr (xs : List J)
  | obj (fields : List (String × J))

/-- Dictionary access on a document object. -/
def J.getField : J → String → Option J
  | J.obj fs, k => fs.lookup k
  | _, _ => none

/-- Serialization of a point as a two-element array. -/
def encPt (p : Pt) : J := J.arr [J.num p.1, J.num p.2]

/-- Serialization of a line as its two endpoints. -/
def encLine (l : Pt × Pt) : J := J.arr [encPt l.1, encPt l.2]

/-- Serialization of a zone as its vertex array. -/
def encZone (z : List Pt) : J := J.arr (z.map encPt)

/-- Serialization of the Draw dataclass, as asdict produces it. -/
def encDraw (d : Draw) : J :=
  J.obj [("lines", J.arr (d.lines.map encLine)),
         ("zones", J.arr (d.zones.map encZone))]

/-- Serialization of the Display dataclass, as asdict produces it. -/
def encDisplay (p : Display) : J :=
  J.obj [("fps", J.bool p.fps),
         ("predict_color", J.bool p.predict_color),
         ("box", J.bool p.box),
         ("skip_label", J.bool p.skip_label),
         ("mask", J.bool p.mask),
         ("mask_opacity", J.num p.mask_opacity),
         ("area", J.bool p.area)]

/-- Serialization of the Tweak dataclass, as asdict produces it. -/
def encTweak (t : Tweak) : J :=
  J.obj [("thickness", J.num (t.thickness : ℚ)),
         ("text_scale", J.num t.text_scale),
         ("text_offset", J.num (t.text_offset : ℚ)),
         ("text_padding", J.num (t.text_padding : ℚ)),
         ("text_color", J.str t.text_color)]

/-- Serialization of the ModelInfo dataclass, as asdict produces it; a
missing tracker serializes as null. -/
def encModelInfo (m : ModelInfo) : J :=
  J.obj [("path", J.str m.path),
         ("classes", J.arr (m.classes.map (fun i => J.num (i : ℚ)))),
         ("ver", J.str m.ver),
         ("task", J.str m.task),
         ("conf", J.num m.conf),
         ("tracker", match m.tracker with | none => J.null | some s => J.str s)]

/-- Embedding of Annotator.__dict__ / Annotator.dump from src/core.py: the
persisted document holds the model selector, the DrawSet, the display
toggles and the rendering tweaks; the external model handle itself is not
serialized. -/
def dumpA (a : AnnState) : J :=
  J.obj [("model", encModelInfo a.modelInfo),
         ("draw", encDraw a.draw),
         ("display", encDisplay a.display),
         ("tweak", encTweak a.tweak)]

/-- Decoding a number field. -/
def decQ : J → Option ℚ
  | J.num q => some q
  | _ => none

/-- Decoding an integer field (dacite checks the int type). -/
def decInt : J → Option ℤ
  | J.num q => if q.den = 1 then some q.num else none
  | _ => none

/-- Decoding a boolean field. -/
def decBool : J → Option Bool
  | J.bool b => some b
  | _ => none

/-- Decoding a string field. -/
def decStr : J → Option String
  | J.str s => some s
  | _ => none

/-- Decoding an optional string field, null standing for the absent
tracker. -/
def decTracker : J → Option (Option String)
  | J.null => some none
  | J.str s => some (some s)
  | _ => none

/-- Decoding an array field elementwise. -/
def decArr {α : Type} (f : J → Option α) : J → Option (List α)
  | J.arr xs => mapO f xs
  | _ => none

/-- Decoding a point from a two-element array. -/
def decPt : J → Option Pt
  | J.arr [a, b] => do
    let x ← decQ a
    let y ← decQ b
    pure ((x, y) : Pt)
  | _ => none

/-- Decoding a line from its two endpoints. -/
def decLine : J → Option (Pt × Pt)
  | J.arr [a, b] => do
    let p ← decPt a
    let q ← decPt b
    pure (p, q)
  | _ => none

/-- Decoding the Draw dataclass, as from_dict does. -/
def decDraw (j : J) : Option Draw := do
  let lines ← (← j.getField "lines") |> decArr decLine
  let zones ← (← j.getField "zones") |> decArr (decArr decPt)
  pure { lines := lines, zones := zones }

/-- Decoding the Display dataclass, as from_dict does. -/
def decDisplay (j : J) : Option Display := do
  let fps ← (← j.getField "fps") |> decBool
  let predict_color ← (← j.getField "predict_color") |> decBool
  let box ← (← j.getField "box") |> decBool
  let skip_label ← (← j.getField "skip_label") |> decBool
  let mask ← (← j.getField "mask") |> decBool
  let mask_opacity ← (← j.getField "mask_opacity") |> decQ
  let area ← (← j.getField "area") |> decBool
  pure { fps := fps, predict_color := predict_color, box := box,
         skip_label := skip_label, mask := mask, mask_opacity := mask_opacity,
         area := area }

/-- Decoding the Tweak dataclass, as from_dict does. -/
def decTweak (j : J) : Option Tweak := do
  let thickness ← (← j.getField "thickness") |> decInt
  let text_scale ← (← j.getField "text_scale") |> decQ
  let text_offset ← (← j.getField "text_offset") |> decInt
  let text_padding ← (← j.getField "text_padding") |> decInt
  let text_color ← (← j.getField "text_color") |> decStr
  pure { thickness := thickness, text_scale := text_scale,
         text_offset := text_offset, text_padding := text_padding,
         text_color := text_color }

/-- Decoding the ModelInfo dataclass, as from_dict does. -/
def decModelInfo (j : J) : Option ModelInfo := do
  let path ← (← j.getField "path") |> decStr
  let classes ← (← j.getField "classes") |> decArr decInt
  let ver ← (← j.getField "ver") |> decStr
  let task ← (← j.getField "task") |> decStr
  let conf ← (← j.getField "conf") |> decQ
  let tracker ← (← j.getField "tracker") |> decTracker
  pure { path := path, classes := classes, ver := ver, task := task,
         conf := conf, tracker := tracker }

/-- Embedding of Annotator.load from src/core.py: each component is
decoded from the document and a fresh Annotator is constructed at the
caller-supplied resolution, re-resolving the external model handle from
the decoded ModelInfo. -/
def loadA (j : J) (reso : ℕ × ℕ) : Option AnnState := do
  let mi ← (← j.getField "model") |> decModelInfo
  let disp ← (← j.getField "display") |> decDisplay
  let tw ← (← j.getField "tweak") |> decTweak
  let dr ← (← j.getField "draw") |> decDraw
  pure (mkAnnotator mi reso dr disp tw)

/-- Elementwise decoding inverts elementwise encoding. -/
theorem mapO_map_enc {α : Type} (f : α → J) (g : J → Option α)
    (h : ∀ a, g (f a) = some a) (l : List α) : mapO g (l.map f) = some l := by
  induction l with
  | nil => rfl
  | cons a l ih => simp [h, ih]

/-- Point decoding inverts point encoding. -/
theorem decPt_encPt (p : Pt) : decPt (encPt p) = some p := rfl

/-- Line decoding inverts line encoding. -/
theorem decLine_encLine (l : Pt × Pt) : decLine (encLine l) = some l := rfl

/-- Integer decoding inverts integer encoding. -/
theorem decInt_encInt (i : ℤ) : decInt (J.num (i : ℚ)) = some i := by
  simp [decInt, Rat.den_intCast, Rat.num_intCast]

/-- Draw decoding inverts Draw encoding. -/
theorem decDraw_encDraw (d : Draw) : decDraw (encDraw d) = some d := by
  cases d with
  | mk lines zones =>
    simp [decDraw, encDraw, J.getField, List.lookup, decArr,
      mapO_map_enc encLine decLine decLine_encLine,
      mapO_map_enc encZone (decArr decPt)
        (fun z => by simp [encZone, decArr, mapO_map_enc encPt decPt decPt_encPt])]

/-- Display decoding inverts Display encoding. -/
theorem decDisplay_encDisplay (p : Display) :
    decDisplay (encDisplay p) = some p := rfl

/-- Tweak decoding inverts Tweak encoding. -/
theorem decTweak_encTweak (t : Tweak) : decTweak (encTweak t) = some t := by
  cases t with
  | mk th ts toff tp tc =>
    simp [decTweak, encTweak, J.getField, List.lookup, decInt_encInt, decQ, decStr]

/-- ModelInfo decoding inverts ModelInfo encoding. -/
theorem decModelInfo_encModelInfo (m : ModelInfo) :
    decModelInfo (encModelInfo m) = some m := by
  cases m with
  | mk path classes ver task conf tracker =>
    have key : mapO decInt (classes.map (fun i : ℤ => J.num (i : ℚ))) = some classes :=
      mapO_map_enc _ decInt decInt_encInt classes
    cases tracker <;>
      simp [decModelInfo, encModelInfo, J.getField, List.lookup, decStr, decQ,
        decTracker, decArr, key,
        -List.pure_def, -List.bind_eq_flatMap, Function.comp_def]

/-- Mapping a function of the second component over a zip of equal-length
lists is mapping it over the second list. -/
theorem zip_map_snd {α β γ : Type} (g : β → γ) :
    ∀ (xs : List α) (ys : List β), xs.length = ys.length →
      (xs.zip ys).map (fun p => g p.2) = ys.map g
  | [], [], _ => rfl
  | [], _ :: _, h => by simp at h
  | _ :: _, [], h => by simp at h
  | x :: xs, y :: ys, h => by
    simp only [List.zip_cons_cons, List.map_cons, List.cons.injEq, true_and]
    exact zip_map_snd g xs ys (by simpa using h)

/-- The rescaled polygon of a zone: every vertex multiplied by the scale
factor and truncated to integer pixel coordinates. -/
def rescaleZone (s : ℚ) (p : List Pt) : List Pt :=
  p.map (fun v => truncPt (scalePt s v))

/-- Successful update unfolded: the rebuilt state in closed form. -/
theorem updateAnn_eq_some (a : AnnState) (fh fw : ℕ) (a' : AnnState)
    (h : updateAnn a fh fw = some a') :
    a.reso.2 ≠ 0 ∧ a.draw.zones.length ≤ a.zones.length ∧
    a' = { a with
      ls := a.draw.lines.map (fun l =>
        mkLineZone (scalePt ((fh : ℚ) / (a.reso.2 : ℚ)) l.1)
                   (scalePt ((fh : ℚ) / (a.reso.2 : ℚ)) l.2))
      zs := a.draw.zones.map (fun p =>
        PolygonZone.mk (rescaleZone ((fh : ℚ) / (a.reso.2 : ℚ)) p) (fw, fh))
      zones :=
        ((a.zones.zip (a.draw.zones.map (fun p =>
            PolygonZone.mk (rescaleZone ((fh : ℚ) / (a.reso.2 : ℚ)) p) (fw, fh)))).map
          (fun p => { p.1 with zone := p.2, center := polygonCenter p.2.polygon }))
        ++ a.zones.drop a.draw.zones.length } := by
  unfold updateAnn at h
  by_cases h0 : a.reso.2 = 0
  · rw [if_pos h0] at h
    exact absurd h (by simp)
  · rw [if_neg h0] at h
    by_cases hl : a.zones.length < a.draw.zones.length
    · rw [if_pos hl] at h
      exact absurd h (by simp)
    · rw [if_neg hl] at h
      refine ⟨h0, Nat.le_of_not_lt hl, ?_⟩
      have h2 := (Option.some.inj h).symm
      rw [h2]
      simp [List.map_map, Function.comp_def, rescaleZone]

/-- Claim C2: update rescales with the single uniform factor
s = frame height over recorded height: every line endpoint coordinate is
multiplied by s exactly, every polygon vertex is multiplied by s and
truncated (not rounded) to integer pixel coordinates, and every zone's
label-anchor center is recomputed as the centroid of its rescaled vertex
set. -/
theorem update_rescales_uniformly (a : AnnState) (fh fw : ℕ)
    (h0 : a.reso.2 ≠ 0) (hlen : a.zones.length = a.draw.zones.length) :
    ∃ a', updateAnn a fh fw = some a' ∧
      a'.ls = a.draw.lines.map (fun l =>
        mkLineZone (scalePt ((fh : ℚ) / (a.reso.2 : ℚ)) l.1)
                   (scalePt ((fh : ℚ) / (a.reso.2 : ℚ)) l.2)) ∧
      a'.zs.map (fun z => z.polygon)
        = a.draw.zones.map (fun p => rescaleZone ((fh : ℚ) / (a.reso.2 : ℚ)) p) ∧
      a'.zones.map (fun za => za.center)
        = a.draw.zones.map (fun p =>
            polygonCenter (rescaleZone ((fh : ℚ) / (a.reso.2 : ℚ)) p)) := by
  have hguard : ¬ a.zones.length < a.draw.zones.length := by simp [hlen]
  cases hu : updateAnn a fh fw with
  | none =>
    exfalso
    unfold updateAnn at hu
    rw [if_neg h0, if_neg hguard] at hu
    simp at hu
  | some a' =>
    obtain ⟨-, -, hEq⟩ := updateAnn_eq_some a fh fw a' hu
    refine ⟨a', rfl, ?_, ?_, ?_⟩
    · rw [hEq]
    · rw [hEq]
      simp [List.map_map, Function.comp_def]
    · have hlen2 : a.zones.length
          = (a.draw.zones.map (fun p =>
              PolygonZone.mk (rescaleZone ((fh : ℚ) / (a.reso.2 : ℚ)) p) (fw, fh))).length := by
        simpa using hlen
      rw [hEq]
      have hz := zip_map_snd
        (fun z : PolygonZone => polygonCenter z.polygon) a.zones
        (a.draw.zones.map (fun p =>
          PolygonZone.mk (rescaleZone ((fh : ℚ) / (a.reso.2 : ℚ)) p) (fw, fh))) hlen2
      simp only [List.map_map, Function.comp_def] at hz
      simp only [List.map_append, List.map_map, Function.comp_def, ← hlen,
        List.drop_length, List.map_nil, List.append_nil]
      simpa using hz

/-- Concrete pipeline state used to instantiate the update theorems: one
line and one triangular zone authored at resolution 640 by 480. -/
def sampleA : AnnState :=
  mkAnnotator {} (640, 480)
    { lines := [((0, 0), (100, 0))], zones := [[(0, 0), (50, 0), (50, 50)]] }
    {} {}

/-- Witness for claim C2 at the concrete state sampleA, rescaled to height
960 (scale factor 2). -/
theorem update_rescales_uniformly_witness :
    ∃ a', updateAnn sampleA 960 1280 = some a' ∧
      a'.ls = sampleA.draw.lines.map (fun l =>
        mkLineZone (scalePt ((960 : ℚ) / ((sampleA.reso.2 : ℕ) : ℚ)) l.1)
                   (scalePt ((960 : ℚ) / ((sampleA.reso.2 : ℕ) : ℚ)) l.2)) ∧
      a'.zs.map (fun z => z.polygon)
        = sampleA.draw.zones.map (fun p =>
            rescaleZone ((960 : ℚ) / ((sampleA.reso.2 : ℕ) : ℚ)) p) ∧
      a'.zones.map (fun za => za.center)
        = sampleA.draw.zones.map (fun p =>
            polygonCenter (rescaleZone ((960 : ℚ) / ((sampleA.reso.2 : ℕ) : ℚ)) p)) :=
  update_rescales_uniformly sampleA 960 1280 (by decide) (by decide)

/-- Claim C3 counterexample: at the concrete state sampleA (authored at
height 480) rescaled to height 960, update leaves the stored DrawSet at
its authored coordinates instead of replacing it with the rescaler output,
so the DrawSet itself stays in the stale resolution. -/
theorem update_does_not_replace_draw :
    (updateAnn sampleA 960 1280).map (fun s => s.draw)
      = some { lines := [((0, 0), (100, 0))], zones := [[(0, 0), (50, 0), (50, 50)]] } ∧
    (updateAnn sampleA 960 1280).map (fun s => s.draw)
      ≠ some { lines := [((0, 0), (200, 0))],
               zones := [[(0, 0), (100, 0), (100, 100)]] } := by
  decide

/-- Claim C3 amended: update never touches the stored DrawSet or the
recorded resolution; what it replaces is the derived trigger geometry,
which it rebuilds from the authored DrawSet into the current operating
resolution on every call. -/
theorem update_draw_stays_authored (a : AnnState) (fh fw : ℕ) (a' : AnnState)
    (h : updateAnn a fh fw = some a') :
    a'.draw = a.draw ∧ a'.reso = a.reso ∧
    a'.ls = a.draw.lines.map (fun l =>
      mkLineZone (scalePt ((fh : ℚ) / (a.reso.2 : ℚ)) l.1)
                 (scalePt ((fh : ℚ) / (a.reso.2 : ℚ)) l.2)) ∧
    a'.zs = a.draw.zones.map (fun p =>
      PolygonZone.mk (rescaleZone ((fh : ℚ) / (a.reso.2 : ℚ)) p) (fw, fh)) := by
  obtain ⟨-, -, hEq⟩ := updateAnn_eq_some a fh fw a' h
  rw [hEq]
  exact ⟨rfl, rfl, rfl, rfl⟩

/-- Witness for the amended claim C3 at the concrete state sampleA. -/
theorem update_draw_stays_authored_witness :
    ∃ a', updateAnn sampleA 960 1280 = some a' ∧
      (a'.draw = sampleA.draw ∧ a'.reso = sampleA.reso ∧
       a'.ls = sampleA.draw.lines.map (fun l =>
         mkLineZone (scalePt ((960 : ℚ) / ((sampleA.reso.2 : ℕ) : ℚ)) l.1)
                    (scalePt ((960 : ℚ) / ((sampleA.reso.2 : ℕ) : ℚ)) l.2)) ∧
       a'.zs = sampleA.draw.zones.map (fun p =>
         PolygonZone.mk (rescaleZone ((960 : ℚ) / ((sampleA.reso.2 : ℕ) : ℚ)) p)
           (1280, 960))) := by
  have hs : (updateAnn sampleA 960 1280).isSome = true := by decide
  obtain ⟨a', ha'⟩ := Option.isSome_iff_exists.mp hs
  exact ⟨a', ha', update_draw_stays_authored sampleA 960 1280 a' ha'⟩

/-- Concrete pipeline state whose recorded construction height is zero. -/
def zeroHA : AnnState := mkAnnotator {} (640, 0) { lines := [], zones := [] } {} {}

/-- Claim C4 counterexample: with recorded height 0 (and even an empty
DrawSet), update is a ZeroDivisionError (modelled as none), not a no-op
that returns the state unchanged. -/
theorem update_zero_height_not_noop :
    updateAnn zeroHA 480 640 = none ∧ updateAnn zeroHA 480 640 ≠ some zeroHA := by
  decide

/-- Claim C4 amended: when the recorded height is nonzero and the DrawSet
is empty, update is a no-op returning the state unchanged; a zero recorded
height instead raises a division error regardless of the DrawSet. -/
theorem update_empty_draw_noop (mi : ModelInfo) (w0 h0 : ℕ) (disp : Display)
    (tw : Tweak) (fh fw : ℕ) (h : h0 ≠ 0) :
    updateAnn (mkAnnotator mi (w0, h0) { lines := [], zones := [] } disp tw) fh fw
      = some (mkAnnotator mi (w0, h0) { lines := [], zones := [] } disp tw) := by
  unfold updateAnn mkAnnotator
  simp [h]

/-- Witness for the amended claim C4 at a concrete empty state. -/
theorem update_empty_draw_noop_witness :
    updateAnn (mkAnnotator {} (640, 480) { lines := [], zones := [] } {} {}) 960 1280
      = some (mkAnnotator {} (640, 480) { lines := [], zones := [] } {} {}) :=
  update_empty_draw_noop {} 640 480 {} {} 960 1280 (by decide)

/-- Claim C10: every successful update call rebuilds the line trigger
objects anew from the authored line geometry, so afterwards every line's
accumulated in and out crossing counters are zero, including at scale 1. -/
theorem update_resets_line_counters (a : AnnState) (fh fw : ℕ) (a' : AnnState)
    (h : updateAnn a fh fw = some a') :
    ∀ l ∈ a'.ls, l.in_count = 0 ∧ l.out_count = 0 := by
  obtain ⟨-, -, hEq⟩ := updateAnn_eq_some a fh fw a' h
  rw [hEq]
  intro l hl
  simp only [List.mem_map] at hl
  obtain ⟨x, -, hx⟩ := hl
  rw [← hx]
  exact ⟨rfl, rfl⟩

/-- Concrete pipeline state whose single line trigger has accumulated
nonzero crossing counters. -/
def countedA : AnnState :=
  { modelInfo := {}
    reso := (640, 480)
    draw := { lines := [((0, 0), (100, 0))], zones := [] }
    display := {}
    tweak := {}
    ls := [{ start := (0, 0), stop := (100, 0), in_count := 5, out_count := 7 }]
    zs := []
    zones := [] }

/-- Witness for claim C10: updating countedA at the same height (scale 1)
still resets the counters to zero. -/
theorem update_resets_line_counters_witness :
    ∃ a', updateAnn countedA 480 640 = some a' ∧
      ∀ l ∈ a'.ls, l.in_count = 0 ∧ l.out_count = 0 := by
  have hs : (updateAnn countedA 480 640).isSome = true := by decide
  obtain ⟨a', ha'⟩ := Option.isSome_iff_exists.mp hs
  exact ⟨a', ha', update_resets_line_counters countedA 480 640 a' ha'⟩

/-- The display configuration with all five render toggles off. -/
def offDisplay : Display :=
  { fps := false, predict_color := false, box := false, skip_label := false,
    mask := false, mask_opacity := 0.5, area := false }

/-- A fresh camera frame: empty drawing trace. -/
def camF : Frame := { height := 480, width := 640 }

/-- Concrete pipeline state with all toggles off and one authored line. -/
def lineOnlyA : AnnState :=
  mkAnnotator {} (640, 480) { lines := [((0, 0), (100, 0))], zones := [] }
    offDisplay {}

/-- Claim C1 counterexample: with every display toggle off but a nonempty
DrawSet, the render pass still invokes the line trigger's painter on the
frame (the line and zone loops are unconditional), so the returned frame
is not pixel-identical to the input. -/
theorem annotate_paints_lines_with_toggles_off :
    (annotate lineOnlyA camF []).1
      = { height := 480, width := 640, ops := [DrawOp.lineAnnot 0] } ∧
    (annotate lineOnlyA camF []).1 ≠ camF := by
  decide

/-- Claim C1 amended: with all five display toggles off and an empty
DrawSet, the pipeline applies no drawing operation and returns the input
frame pixel-identical (the external model preview being a separate
output). -/
theorem annotate_identity_toggles_off_empty_draw (mi : ModelInfo) (reso : ℕ × ℕ)
    (disp : Display) (tw : Tweak) (f : Frame) (det : List Det)
    (hfps : disp.fps = false) (hpc : disp.predict_color = false)
    (hbox : disp.box = false) (hmask : disp.mask = false)
    (harea : disp.area = false) :
    (annotate (mkAnnotator mi reso { lines := [], zones := [] } disp tw) f det).1
      = f := by
  simp [annotate, mkAnnotator, hfps, hpc, hbox, hmask, harea]

/-- Witness for the amended claim C1 at a concrete empty state. -/
theorem annotate_identity_toggles_off_empty_draw_witness :
    (annotate (mkAnnotator {} (640, 480) { lines := [], zones := [] } offDisplay {})
        camF []).1 = camF :=
  annotate_identity_toggles_off_empty_draw {} (640, 480) offDisplay {} camF []
    rfl rfl rfl rfl rfl

@[simp] theorem colorStep_nil (f : Frame) : colorStep [] f = (f, []) := rfl

@[simp] theorem colorStep_cons (d : Det) (ds : List Det) (f : Frame) :
    colorStep (d :: ds) f =
      ((colorStep ds
          (pushOp f (DrawOp.colorLabel ((detCenter d).1, (detCenter d).2 + 20)))).1,
       f :: (colorStep ds
          (pushOp f (DrawOp.colorLabel ((detCenter d).1, (detCenter d).2 + 20)))).2) := rfl

/-- The predict-color loop yields one crop source per detection. -/
theorem colorStep_sources_len (det : List Det) (f : Frame) :
    (colorStep det f).2.length = det.length := by
  induction det generalizing f with
  | nil => rfl
  | cons d ds ih => simp [ih]

/-- In the predict-color loop, the crop source of the i-th detection is the
input buffer extended by the colour labels already painted for the first i
detections of the same pass. -/
theorem colorStep_sources (det : List Det) (f : Frame) (i : ℕ)
    (h : i < det.length) :
    (colorStep det f).2[i]?
      = some { f with ops := f.ops ++ (det.take i).map (fun d =>
          DrawOp.colorLabel ((detCenter d).1, (detCenter d).2 + 20)) } := by
  induction det generalizing f i with
  | nil => simp at h
  | cons d ds ih =>
    match i with
    | 0 =>
      cases f
      simp
    | j + 1 =>
      have h' : j < ds.length := by simpa using h
      have step := ih
        (pushOp f (DrawOp.colorLabel ((detCenter d).1, (detCenter d).2 + 20))) j h'
      simp only [colorStep_cons, List.getElem?_cons_succ]
      rw [step]
      cases f
      simp [pushOp]

/-- Claim C7 amended: when predict-color is on, every detection's box
region is cropped from the frame buffer being annotated in place: the
first detection's crop comes from the original input frame, but each later
detection's crop comes from the input frame already extended by the colour
labels painted for the earlier detections of the same pass; the crop never
comes from the model preview, and the detection list itself is returned
with its geometry unchanged. -/
theorem predict_color_crops_from_live_buffer (a : AnnState) (f : Frame)
    (det : List Det) (hpc : a.display.predict_color = true) :
    (annotate a f det).2.1 = det ∧
    (annotate a f det).2.2.length = det.length ∧
    ∀ i, i < det.length →
      (annotate a f det).2.2[i]?
        = some { f with ops := f.ops ++ (det.take i).map (fun d =>
            DrawOp.colorLabel ((detCenter d).1, (detCenter d).2 + 20)) } := by
  have h22 : (annotate a f det).2.2 = (colorStep det f).2 := by
    simp [annotate, hpc]
  refine ⟨rfl, ?_, ?_⟩
  · rw [h22]
    exact colorStep_sources_len det f
  · intro i hi
    rw [h22]
    exact colorStep_sources det f i hi

/-- Concrete pipeline state with predict-color on and no other toggle. -/
def colorA : AnnState :=
  mkAnnotator {} (640, 480) { lines := [], zones := [] }
    { fps := false, predict_color := true, box := false, skip_label := false,
      mask := false, mask_opacity := 0.5, area := false } {}

/-- Two overlapping detections for the predict-color counterexample. -/
def twoDets : List Det :=
  [{ x1 := 0, y1 := 0, x2 := 100, y2 := 100 },
   { x1 := 10, y1 := 10, x2 := 90, y2 := 90 }]

/-- Claim C7 counterexample: the second detection's box region is cropped
from the buffer that already holds the first detection's colour label (the
frame is painted in place between crops), so it is not taken from the
original input frame. -/
theorem predict_color_second_crop_not_original :
    (annotate colorA camF twoDets).2.2[1]?
      = some { height := 480, width := 640, ops := [DrawOp.colorLabel (50, 70)] } ∧
    (annotate colorA camF twoDets).2.2[1]? ≠ some camF := by
  decide

/-- Witness for the amended claim C7 at the concrete two-detection run. -/
theorem predict_color_crops_from_live_buffer_witness :
    (annotate colorA camF twoDets).2.1 = twoDets ∧
    (annotate colorA camF twoDets).2.2.length = twoDets.length ∧
    ∀ i, i < twoDets.length →
      (annotate colorA camF twoDets).2.2[i]?
        = some { camF with ops := camF.ops ++ (twoDets.take i).map (fun d =>
            DrawOp.colorLabel ((detCenter d).1, (detCenter d).2 + 20)) } :=
  predict_color_crops_from_live_buffer colorA camF twoDets rfl

/-- A raw rectangle record as the canvas delivers it. -/
def c5Rect : CanvasObj :=
  { type := "rect", left := some 0, top := some 0,
    width := some 60, height := some 20 }

/-- A raw freehand-path record: move, two line commands, and the closing
command that from_canvas drops. -/
def c5Path : CanvasObj :=
  { type := "path",
    path := some [("M", [0, 0]), ("L", [40, 0]), ("L", [40, 40]), ("z", [])] }

/-- The DrawSet extracted from the rectangle record followed by the path
record: the path polygon comes first even though the rectangle came first
in the input. -/
def c5Draw : Draw :=
  { lines := []
    zones := [[(0, 0), (40, 0), (40, 40)],
              [(0, 0), (60, 0), (60, 20), (0, 20)]] }

/-- Claim C5 counterexample: on the input list rectangle-then-path, the
extracted zones list the path polygon before the rectangle polygon, so the
relative order of polygons does not match the relative order of the
records in the input list. -/
theorem from_canvas_paths_precede_rects :
    Draw.from_canvas [c5Rect, c5Path] = some c5Draw ∧
    Draw.from_canvas [c5Rect, c5Path]
      ≠ some { lines := [],
               zones := [[(0, 0), (60, 0), (60, 20), (0, 20)],
                         [(0, 0), (40, 0), (40, 40)]] } := by
  have h : Draw.from_canvas [c5Rect, c5Path] = some c5Draw := by
    simp [Draw.from_canvas, c5Rect, c5Path, c5Draw, lineOf, pathZoneOf,
      rectZoneOf, mapO, List.filter]
  refine ⟨h, ?_⟩
  rw [h]
  decide

/-- Claim C5 amended: Draw.from_canvas preserves the relative input order
within each record kind: the lines output is the in-order image of the
line records, and zones are all freehand-path polygons in input order
followed by all rectangle polygons in input order (every path polygon
precedes every rectangle polygon regardless of interleaving in the
input). -/
theorem from_canvas_orders_within_kind (d : List CanvasObj) (dr : Draw)
    (h : Draw.from_canvas d = some dr) :
    ∃ pzs rzs,
      mapO lineOf (d.filter (fun o => o.type == "line")) = some dr.lines ∧
      mapO pathZoneOf (d.filter (fun o => o.type == "path")) = some pzs ∧
      mapO rectZoneOf (d.filter (fun o => o.type == "rect")) = some rzs ∧
      dr.zones = pzs ++ rzs := by
  unfold Draw.from_canvas at h
  cases hl : mapO lineOf (d.filter (fun o => o.type == "line")) with
  | none => rw [hl] at h; simp at h
  | some ls =>
    rw [hl] at h
    cases hp : mapO pathZoneOf (d.filter (fun o => o.type == "path")) with
    | none => rw [hp] at h; simp at h
    | some ps =>
      rw [hp] at h
      cases hr : mapO rectZoneOf (d.filter (fun o => o.type == "rect")) with
      | none => rw [hr] at h; simp at h
      | some rs =>
        rw [hr] at h
        have h2 : ({ lines := ls, zones := ps ++ rs } : Draw) = dr :=
          Option.some.inj h
        rw [← h2]
        exact ⟨ps, rs, rfl, rfl, rfl, rfl⟩

/-- Witness for the amended claim C5 at the rectangle-then-path input. -/
theorem from_canvas_orders_within_kind_witness :
    ∃ pzs rzs,
      mapO lineOf ([c5Rect, c5Path].filter (fun o => o.type == "line"))
        = some c5Draw.lines ∧
      mapO pathZoneOf ([c5Rect, c5Path].filter (fun o => o.type == "path"))
        = some pzs ∧
      mapO rectZoneOf ([c5Rect, c5Path].filter (fun o => o.type == "rect"))
        = some rzs ∧
      c5Draw.zones = pzs ++ rzs :=
  from_canvas_orders_within_kind [c5Rect, c5Path] c5Draw
    (by simp [Draw.from_canvas, c5Rect, c5Path, c5Draw, lineOf, pathZoneOf,
          rectZoneOf, mapO, List.filter])

/-- A record of recognised kind line with its endpoint fields missing. -/
def c9Bad : CanvasObj := { type := "line", left := some 0, top := some 0 }

/-- Claim C9 counterexample: a malformed record of the recognised kind
line (missing its endpoint fields) makes Draw.from_canvas raise a KeyError
(modelled as none); it is not silently ignored. -/
theorem from_canvas_malformed_record_raises :
    Draw.from_canvas [c9Bad] = none ∧
    Draw.from_canvas [c9Bad] ≠ some { lines := [], zones := [] } := by
  decide

/-- Claim C9 amended: only records of unrecognised kind are silently
ignored: prepending a record whose kind is none of line, path, rect leaves
the extraction result unchanged. A malformed record of a recognised kind
instead aborts the whole call. -/
theorem from_canvas_ignores_unknown_kinds (r : CanvasObj) (d : List CanvasObj)
    (h1 : r.type ≠ "line") (h2 : r.type ≠ "path") (h3 : r.type ≠ "rect") :
    Draw.from_canvas (r :: d) = Draw.from_canvas d := by
  unfold Draw.from_canvas
  rw [List.filter_cons_of_neg (by simpa using h1),
      List.filter_cons_of_neg (by simpa using h2),
      List.filter_cons_of_neg (by simpa using h3)]

/-- A record of a kind the extractor does not recognise. -/
def c9Circle : CanvasObj := { type := "circle", left := some 3 }

/-- Witness for the amended claim C9: an unrecognised circle record
contributes nothing. -/
theorem from_canvas_ignores_unknown_kinds_witness :
    Draw.from_canvas [c9Circle, c5Rect] = Draw.from_canvas [c5Rect] :=
  from_canvas_ignores_unknown_kinds c9Circle [c5Rect]
    (by decide) (by decide) (by decide)

/-- Claim C8: serializing the pipeline configuration and loading it back
restores every field of the model selector, the DrawSet, the display
toggles and the rendering tweaks exactly equal to the serialized values;
the external model handle is re-resolved from the restored ModelInfo (the
loaded state is constructed afresh at the caller-supplied resolution)
rather than literally serialized. -/
theorem dump_load_restores_config (a : AnnState) (r : ℕ × ℕ) :
    ∃ a', loadA (dumpA a) r = some a' ∧
      a'.modelInfo = a.modelInfo ∧ a'.draw = a.draw ∧
      a'.display = a.display ∧ a'.tweak = a.tweak := by
  refine ⟨mkAnnotator a.modelInfo r a.draw a.display a.tweak, ?_, rfl, rfl, rfl, rfl⟩
  simp [loadA, dumpA, J.getField, List.lookup, decModelInfo_encModelInfo,
    decDisplay_encDisplay, decTweak_encTweak, decDraw_encDraw]

/-- Claim C6: the code's colour transform disagrees with the standard
transform the claim states: on pure green the code's Cb coefficient
0.331364 (a slip for the standard 0.331264) yields Cb = 128 - 0.331364
while the claimed transform yields Cb = 128 - 0.331264, so the conversion
is not the stated one. -/
theorem rgb2ycc_cb_coefficient_bug :
    (rgb2ycc (0, 255, 0)).2.1 = 128 - 0.331364 ∧
    (rgb2ycc_spec (0, 255, 0)).2.1 = 128 - 0.331264 ∧
    rgb2ycc (0, 255, 0) ≠ rgb2ycc_spec (0, 255, 0) := by
  refine ⟨by norm_num [rgb2ycc], by norm_num [rgb2ycc_spec], fun h => ?_⟩
  have h2 := congrArg (fun t => t.2.1) h
  norm_num [rgb2ycc, rgb2ycc_spec] at h2

end Core
